import Mathlib

/-!
# Verification of the lotto backend's wallet, retry, draw and ticket logic

Shallow embedding of the JavaScript source under `src/`:
money values (`DECIMAL(10,2)` columns, JS numbers) are modelled as `Rat`,
row ids as `Nat`, 6-digit zero-padded ticket-number strings as `Nat < 1000000`
(`padStart(6,'0')` makes the string determined by the numeric value, and the
tail-digit matches `number.slice(-3)` / `slice(-2)` become `% 1000` / `% 100`).
Thrown `BusinessLogicError`s and SQL failures are modelled with `Except`.
-/

namespace Lotto

/-- Machine error codes raised by the source (`BusinessLogicError.code` values,
plus codes attached to plain `Error`s in the route handlers). -/
inductive ErrCode where
  | INVALID_WALLET_AMOUNT
  | INVALID_REQUIRED_AMOUNT
  | INSUFFICIENT_FUNDS
  | NEGATIVE_AMOUNT
  | AMOUNT_EXCEEDS_LIMIT
  | RATE_LIMIT_EXCEEDED
  | USER_NOT_FOUND
  | INSUFFICIENT_TICKETS
  | INVALID_POOL_TYPE
  | INVALID_REWARDS
  | INVALID_REWARD_AMOUNT
  | TICKETS_NOT_AVAILABLE
  | NO_TICKETS_SELECTED
  | NO_ADMIN_FOUND
  | TICKETS_ALREADY_EXIST
  | NOT_TICKET_OWNER
  | INVALID_TICKET_STATUS
  | NOT_WINNER
  | TICKET_UPDATE_FAILED
  | DB_FAULT
  deriving DecidableEq, Repr

/-! ## Wallet Ledger (src/utils/businessLogicValidator.js, src/services/UserService.js) -/

/-- `WalletValidator.validateWalletAmount` (businessLogicValidator.js:66-90).
The `typeof`/`isNaN` checks hold for every `Rat`, so only the sign and
ceiling checks remain. Returns the error thrown, if any. -/
def validateWalletAmount (amount : Rat) : Option ErrCode :=
  if amount < 0 then some .NEGATIVE_AMOUNT
  else if amount > 1000000 then some .AMOUNT_EXCEEDS_LIMIT
  else none

/-- `WalletValidator.validateSufficientFunds` (businessLogicValidator.js:29-58). -/
def validateSufficientFunds (currentWallet requiredAmount : Rat) : Option ErrCode :=
  if currentWallet < 0 then some .INVALID_WALLET_AMOUNT
  else if requiredAmount ≤ 0 then some .INVALID_REQUIRED_AMOUNT
  else if currentWallet < requiredAmount then some .INSUFFICIENT_FUNDS
  else none

/-- `UserService.deductFromWallet` (UserService.js:211-248), acting on the
re-read (row-locked) wallet of the target account. `wallet?` is the result of
`SELECT wallet ... FOR UPDATE` (`none` when the user row does not exist);
`rateOk` abstracts `RateLimitValidator.validateRequestRate` (process-local
sliding window): `false` means that call throws `RATE_LIMIT_EXCEEDED`.
Returns the new wallet value on success. -/
def deductFromWallet (wallet? : Option Rat) (amount : Rat) (rateOk : Bool) :
    Except ErrCode Rat :=
  match validateWalletAmount amount with
  | some e => .error e
  | none =>
    if !rateOk then .error .RATE_LIMIT_EXCEEDED
    else
      match wallet? with
      | none => .error .USER_NOT_FOUND
      | some w =>
        match validateSufficientFunds w amount with
        | some e => .error e
        | none => .ok (w - amount)

/-- Balance visible after the deduct call: the transaction wrapper rolls back
on any thrown error (and the code writes `UPDATE User SET wallet` only after
all validations pass), so an error leaves the stored balance unchanged. -/
def walletAfterDeduct (w : Rat) (amount : Rat) (rateOk : Bool) : Rat :=
  match deductFromWallet (some w) amount rateOk with
  | .ok w' => w'
  | .error _ => w

/-- Closed form of `deductFromWallet` on an existing account: the validator
cascade in source order. -/
lemma deductFromWallet_eq (w amount : Rat) (rateOk : Bool) :
    deductFromWallet (some w) amount rateOk =
      if amount < 0 then .error .NEGATIVE_AMOUNT
      else if amount > 1000000 then .error .AMOUNT_EXCEEDS_LIMIT
      else if rateOk = false then .error .RATE_LIMIT_EXCEEDED
      else if w < 0 then .error .INVALID_WALLET_AMOUNT
      else if amount ≤ 0 then .error .INVALID_REQUIRED_AMOUNT
      else if w < amount then .error .INSUFFICIENT_FUNDS
      else .ok (w - amount) := by
  unfold deductFromWallet validateWalletAmount validateSufficientFunds
  by_cases h1 : amount < 0 <;> by_cases h2 : amount > 1000000 <;>
    by_cases h3 : w < 0 <;> by_cases h4 : amount ≤ 0 <;>
    by_cases h5 : w < amount <;> cases rateOk <;>
    simp [h1, h2, h3, h4, h5]

/-! ## Claims C1 and C10 -/

/-- **C1.** A wallet deduct never drives the balance below zero: it succeeds
only when the re-read balance is at least the amount (and the new balance is
the old minus the amount, still nonnegative), a failed deduct leaves the
balance unchanged, and when the only obstacle is a shortfall the error raised
is `INSUFFICIENT_FUNDS`. -/
theorem deduct_never_below_zero (w amount : Rat) (rateOk : Bool) :
    (∀ w', deductFromWallet (some w) amount rateOk = .ok w' →
      amount ≤ w ∧ w' = w - amount ∧ 0 ≤ w') ∧
    (∀ e, deductFromWallet (some w) amount rateOk = .error e →
      walletAfterDeduct w amount rateOk = w) ∧
    (0 ≤ w → 0 < amount → amount ≤ 1000000 → rateOk = true → w < amount →
      deductFromWallet (some w) amount rateOk = .error .INSUFFICIENT_FUNDS) := by
  refine ⟨?_, ?_, ?_⟩
  · intro w' h
    rw [deductFromWallet_eq] at h
    split_ifs at h with h1 h2 h3 h4 h5 h6
    all_goals simp only [Except.ok.injEq] at h
    push_neg at h6
    exact ⟨h6, h.symm, by rw [← h]; linarith⟩
  · intro e h
    unfold walletAfterDeduct
    rw [h]
  · intro hw hpos hceil hrate hlt
    rw [deductFromWallet_eq, hrate]
    have h1 : ¬ amount < 0 := by linarith
    have h2 : ¬ amount > 1000000 := by linarith
    have h3 : ¬ w < 0 := by linarith
    have h4 : ¬ amount ≤ 0 := by linarith
    simp [h1, h2, h3, h4, hlt]

/-- Witness for C1 at balance `100`, amount `160` (the spec's own example):
rejected with `INSUFFICIENT_FUNDS`, balance stays `100`. -/
theorem deduct_never_below_zero_witness :
    deductFromWallet (some 100) 160 true = .error .INSUFFICIENT_FUNDS ∧
    walletAfterDeduct 100 160 true = 100 := by
  have h := deduct_never_below_zero 100 160 true
  refine ⟨h.2.2 (by norm_num) (by norm_num) (by norm_num) rfl (by norm_num), ?_⟩
  exact h.2.1 .INSUFFICIENT_FUNDS
    (h.2.2 (by norm_num) (by norm_num) (by norm_num) rfl (by norm_num))

/-- **C10.** A deduct of exactly `0` never succeeds: `0` passes the
format/ceiling validation (`validateWalletAmount`), but for an existing
account with a nonnegative stored balance and the rate limiter allowing the
call, the deduct is rejected with `INVALID_REQUIRED_AMOUNT`
(`requiredAmount <= 0` branch of `validateSufficientFunds`) before any
balance write, leaving the balance unchanged. -/
theorem deduct_zero_never_succeeds (w : Rat) (rateOk : Bool) :
    (∀ w', deductFromWallet (some w) 0 rateOk ≠ .ok w') ∧
    validateWalletAmount 0 = none ∧
    (0 ≤ w → rateOk = true →
      deductFromWallet (some w) 0 rateOk = .error .INVALID_REQUIRED_AMOUNT ∧
      walletAfterDeduct w 0 rateOk = w) := by
  have key : 0 ≤ w → rateOk = true →
      deductFromWallet (some w) 0 rateOk = .error .INVALID_REQUIRED_AMOUNT := by
    intro hw hr
    rw [deductFromWallet_eq, hr]
    have h3 : ¬ w < 0 := by linarith
    norm_num [h3]
  refine ⟨?_, by decide, ?_⟩
  · intro w' h
    rw [deductFromWallet_eq] at h
    split_ifs at h with h1 h2 h3 h4 h5
    any_goals simp at h
    exact absurd le_rfl h5
  · intro hw hr
    refine ⟨key hw hr, ?_⟩
    unfold walletAfterDeduct
    rw [key hw hr]

/-- Witness for C10 at balance `5`: amount `0` is rejected with
`INVALID_REQUIRED_AMOUNT` and the balance stays `5`. -/
theorem deduct_zero_never_succeeds_witness :
    deductFromWallet (some 5) 0 true = .error .INVALID_REQUIRED_AMOUNT ∧
    walletAfterDeduct 5 0 true = 5 :=
  (deduct_zero_never_succeeds 5 true).2.2 (by norm_num) rfl

/-! ## Retry Executor and Transaction Coordinator
(src/utils/databaseErrorHandler.js) -/

/-- A database error as the handler sees it: `code`, `errno` and `message`
are the fields `isRetryableError` inspects. -/
structure DBError where
  code : String
  errno : String
  message : String
  deriving DecidableEq, Repr

/-- The `retryableCodes` list of `DatabaseErrorHandler.isRetryableError`
(databaseErrorHandler.js:39-48). -/
def retryableCodes : List String :=
  ["ECONNRESET", "ECONNREFUSED", "ETIMEDOUT", "ENOTFOUND",
   "ER_LOCK_WAIT_TIMEOUT", "ER_LOCK_DEADLOCK", "ER_CON_COUNT_ERROR",
   "ER_TOO_MANY_USER_CONNECTIONS"]

/-- JS `String.prototype.includes`: substring test. -/
def strIncludes (hay pat : String) : Bool :=
  hay.toList.tails.any (fun t => pat.toList.isPrefixOf t)

/-- `DatabaseErrorHandler.isRetryableError` (databaseErrorHandler.js:38-54). -/
def isRetryableError (e : DBError) : Bool :=
  retryableCodes.contains e.code || retryableCodes.contains e.errno ||
  strIncludes e.message "Connection lost" ||
  strIncludes e.message "server has gone away"

/-- `DatabaseErrorHandler.calculateDelay` (databaseErrorHandler.js:28-31):
`min(baseDelay * 2^attempt, maxDelay)` with `baseDelay = 1000` ms and
`maxDelay = 10000` ms. -/
def calculateDelay (attempt : Nat) : Nat :=
  min (1000 * 2 ^ attempt) 10000

/-- The error built by `DatabaseErrorHandler.enhanceError`
(databaseErrorHandler.js:185-196): operation name, attempt count and the
original (root-cause) error. -/
structure EnhancedError where
  operation : String
  attempts : Nat
  original : DBError
  deriving DecidableEq, Repr

/-- The `for` loop of `DatabaseErrorHandler.executeWithRetry`
(databaseErrorHandler.js:89-112). `op i` is the outcome of the wrapped
operation on attempt `i` (0-based). Returns the final outcome, the number of
attempts actually made, and the list of backoff delays waited between
attempts. `last` carries `lastError` for the (unreachable when
`maxRetries ≥ 1`) fall-through throw after the loop. -/
def retryLoop (op : Nat → Except DBError α) (name : String)
    (maxRetries : Nat) (attempt : Nat) (last : DBError) :
    Except EnhancedError α × Nat × List Nat :=
  if h : attempt < maxRetries then
    match op attempt with
    | .ok a => (.ok a, attempt + 1, [])
    | .error e =>
      if attempt = maxRetries - 1 ∨ isRetryableError e = false then
        (.error ⟨name, attempt + 1, e⟩, attempt + 1, [])
      else
        let r := retryLoop op name maxRetries (attempt + 1) e
        (r.1, r.2.1, calculateDelay attempt :: r.2.2)
  else
    (.error ⟨name, maxRetries, last⟩, attempt, [])
termination_by maxRetries - attempt
decreasing_by omega

/-- `DatabaseErrorHandler.executeWithRetry` with the instance defaults
(`maxRetries = 3`). -/
def executeWithRetry (op : Nat → Except DBError α) (name : String) :
    Except EnhancedError α × Nat × List Nat :=
  retryLoop op name 3 0 ⟨"", "", ""⟩

/-- Unfolded form of the 3-attempt retry loop. -/
lemma executeWithRetry_eq (op : Nat → Except DBError α) (name : String) :
    executeWithRetry op name =
      match op 0 with
      | .ok a => (.ok a, 1, [])
      | .error e0 =>
        if isRetryableError e0 = false then (.error ⟨name, 1, e0⟩, 1, [])
        else
          match op 1 with
          | .ok a => (.ok a, 2, [1000])
          | .error e1 =>
            if isRetryableError e1 = false then
              (.error ⟨name, 2, e1⟩, 2, [1000])
            else
              match op 2 with
              | .ok a => (.ok a, 3, [1000, 2000])
              | .error e2 => (.error ⟨name, 3, e2⟩, 3, [1000, 2000]) := by
  unfold executeWithRetry
  rw [retryLoop]
  cases h0 : op 0 with
  | ok a => norm_num
  | error e0 =>
    norm_num
    cases hr0 : isRetryableError e0 with
    | false => norm_num
    | true =>
      norm_num
      rw [retryLoop]
      cases h1 : op 1 with
      | ok a => norm_num [calculateDelay]
      | error e1 =>
        norm_num
        cases hr1 : isRetryableError e1 with
        | false => norm_num [calculateDelay]
        | true =>
          norm_num
          rw [retryLoop]
          cases h2 : op 2 with
          | ok a => norm_num [calculateDelay]
          | error e2 => norm_num [calculateDelay]

/-! ## Claim C8 -/

/-- **C8.** The retry executor makes at most 3 attempts; the delays waited
between attempts are exactly `min(1s·2^i, 10s)` for attempt index `i`; a
further attempt happens only after an error classified transient by
`isRetryableError`; a non-transient first error propagates immediately; and
every propagated error is one enhanced error carrying the operation name, the
attempt count, and the root-cause error of the last attempt. -/
theorem retry_executor_spec (op : Nat → Except DBError α) (name : String) :
    (executeWithRetry op name).2.1 ≤ 3 ∧
    (executeWithRetry op name).2.2 =
      (List.range ((executeWithRetry op name).2.1 - 1)).map
        (fun i => min (1000 * 2 ^ i) 10000) ∧
    (∀ i, i + 1 < (executeWithRetry op name).2.1 →
      ∃ e, op i = .error e ∧ isRetryableError e = true) ∧
    (∀ e, op 0 = .error e → isRetryableError e = false →
      (executeWithRetry op name).1 = .error ⟨name, 1, e⟩ ∧
      (executeWithRetry op name).2.1 = 1) ∧
    (∀ ee, (executeWithRetry op name).1 = .error ee →
      ee.operation = name ∧ ee.attempts = (executeWithRetry op name).2.1 ∧
      op ((executeWithRetry op name).2.1 - 1) = .error ee.original) := by
  cases h0 : op 0 with
  | ok a =>
    have E : executeWithRetry op name = (.ok a, 1, []) := by
      rw [executeWithRetry_eq, h0]
    rw [E]
    refine ⟨by norm_num, by norm_num, ?_, ?_, ?_⟩
    · intro i hi
      norm_num at hi
    · intro e he
      exact absurd he (by simp)
    · intro ee hee
      simp at hee
  | error e0 =>
    cases hr0 : isRetryableError e0 with
    | false =>
      have E : executeWithRetry op name = (.error ⟨name, 1, e0⟩, 1, []) := by
        rw [executeWithRetry_eq, h0]
        simp [hr0]
      rw [E]
      refine ⟨by norm_num, by norm_num, ?_, ?_, ?_⟩
      · intro i hi
        norm_num at hi
      · intro e he hre
        simp only [Except.error.injEq] at he
        subst he
        exact ⟨rfl, rfl⟩
      · intro ee hee
        simp only [Except.error.injEq] at hee
        subst hee
        exact ⟨rfl, rfl, h0⟩
    | true =>
      cases h1 : op 1 with
      | ok a =>
        have E : executeWithRetry op name = (.ok a, 2, [1000]) := by
          rw [executeWithRetry_eq, h0]
          simp [hr0, h1]
        rw [E]
        refine ⟨by norm_num, by norm_num [List.range_succ], ?_, ?_, ?_⟩
        · intro i hi
          norm_num at hi
          have hz : i = 0 := by omega
          subst hz
          exact ⟨e0, h0, hr0⟩
        · intro e he hre
          simp only [Except.error.injEq] at he
          subst he
          exact absurd hre (by simp [hr0])
        · intro ee hee
          simp at hee
      | error e1 =>
        cases hr1 : isRetryableError e1 with
        | false =>
          have E : executeWithRetry op name = (.error ⟨name, 2, e1⟩, 2, [1000]) := by
            rw [executeWithRetry_eq, h0]
            simp [hr0, h1, hr1]
          rw [E]
          refine ⟨by norm_num, by norm_num [List.range_succ], ?_, ?_, ?_⟩
          · intro i hi
            norm_num at hi
            have hz : i = 0 := by omega
            subst hz
            exact ⟨e0, h0, hr0⟩
          · intro e he hre
            simp only [Except.error.injEq] at he
            subst he
            exact absurd hre (by simp [hr0])
          · intro ee hee
            simp only [Except.error.injEq] at hee
            subst hee
            exact ⟨rfl, rfl, h1⟩
        | true =>
          cases h2 : op 2 with
          | ok a =>
            have E : executeWithRetry op name = (.ok a, 3, [1000, 2000]) := by
              rw [executeWithRetry_eq, h0]
              simp [hr0, h1, hr1, h2]
            rw [E]
            refine ⟨by norm_num, by norm_num [List.range_succ], ?_, ?_, ?_⟩
            · intro i hi
              norm_num at hi
              have hz : i = 0 ∨ i = 1 := by omega
              rcases hz with hz | hz <;> subst hz
              · exact ⟨e0, h0, hr0⟩
              · exact ⟨e1, h1, hr1⟩
            · intro e he hre
              simp only [Except.error.injEq] at he
              subst he
              exact absurd hre (by simp [hr0])
            · intro ee hee
              simp at hee
          | error e2 =>
            have E : executeWithRetry op name =
                (.error ⟨name, 3, e2⟩, 3, [1000, 2000]) := by
              rw [executeWithRetry_eq, h0]
              simp [hr0, h1, hr1, h2]
            rw [E]
            refine ⟨by norm_num, by norm_num [List.range_succ], ?_, ?_, ?_⟩
            · intro i hi
              norm_num at hi
              have hz : i = 0 ∨ i = 1 := by omega
              rcases hz with hz | hz <;> subst hz
              · exact ⟨e0, h0, hr0⟩
              · exact ⟨e1, h1, hr1⟩
            · intro e he hre
              simp only [Except.error.injEq] at he
              subst he
              exact absurd hre (by simp [hr0])
            · intro ee hee
              simp only [Except.error.injEq] at hee
              subst hee
              exact ⟨rfl, rfl, h2⟩

/-- Witness for C8: an operation that fails the first attempt with a
non-retryable duplicate-key error propagates immediately as one enhanced
error after a single attempt. -/
theorem retry_executor_spec_witness :
    (executeWithRetry (fun _ => (.error ⟨"ER_DUP_ENTRY", "", "dup"⟩ : Except DBError Unit))
        "insertUser").1 =
      .error ⟨"insertUser", 1, ⟨"ER_DUP_ENTRY", "", "dup"⟩⟩ ∧
    (executeWithRetry (fun _ => (.error ⟨"ER_DUP_ENTRY", "", "dup"⟩ : Except DBError Unit))
        "insertUser").2.1 = 1 :=
  (retry_executor_spec
      (fun _ => (.error ⟨"ER_DUP_ENTRY", "", "dup"⟩ : Except DBError Unit))
      "insertUser").2.2.2.1
    ⟨"ER_DUP_ENTRY", "", "dup"⟩ rfl (by decide)

/-- Connection / transaction lifecycle events of
`DatabaseErrorHandler.executeTransaction` (databaseErrorHandler.js:122-152). -/
inductive TxEvent where
  | acquire
  | txBegin
  | txCommit
  | txRollback
  | rollbackFailed
  | release
  deriving DecidableEq, Repr

/-- One attempt of `executeTransaction`'s wrapped lambda
(databaseErrorHandler.js:123-151): `getConnection()`, `beginTransaction()`,
run the operation, `commit()` on success; on a thrown error `rollback()`
inside its own try/catch (a rollback failure is only logged, `rollbackFailed`
event) and the original error is rethrown; `connection.end()` in the
`finally` (its failure is also caught and only logged). Returns the
propagated outcome and the ordered event trace. -/
def txAttempt (opResult : Except DBError α) (rollbackOk : Bool) :
    Except DBError α × List TxEvent :=
  match opResult with
  | .ok a => (.ok a, [.acquire, .txBegin, .txCommit, .release])
  | .error e =>
    (.error e,
      [.acquire, .txBegin,
       if rollbackOk then .txRollback else .rollbackFailed, .release])

/-- `DatabaseErrorHandler.executeTransaction`: the per-attempt transactional
wrapper run under `executeWithRetry`. `ops i` / `rbOk i` give attempt `i`'s
operation outcome and whether its rollback (if reached) succeeds. -/
def executeTransaction (ops : Nat → Except DBError α) (rbOk : Nat → Bool)
    (name : String) : Except EnhancedError α × Nat × List Nat :=
  executeWithRetry (fun i => (txAttempt (ops i) (rbOk i)).1) name

/-- The concatenated lifecycle trace of all attempts actually made. -/
def transactionTrace (ops : Nat → Except DBError α) (rbOk : Nat → Bool)
    (name : String) : List TxEvent :=
  (List.range (executeTransaction ops rbOk name).2.1).flatMap
    (fun i => (txAttempt (ops i) (rbOk i)).2)

lemma count_flatMap_eq [DecidableEq β] (l : List Nat) (f : Nat → List β) (x : β) :
    ((l.flatMap f).count x) = (l.map (fun i => (f i).count x)).sum := by
  induction l with
  | nil => rfl
  | cons a l ih => simp [List.flatMap_cons, List.count_append, ih]

lemma sum_map_one (l : List Nat) : (l.map (fun _ => (1 : Nat))).sum = l.length := by
  induction l with
  | nil => rfl
  | cons a l ih => simp [ih, Nat.add_comm]

/-! ## Claim C7 -/

/-- **C7.** Per attempt, `executeTransaction` acquires a connection and opens
a fresh transaction, commits exactly when the operation returns without
error, rolls back on any exception (a rollback failure does not mask the
original error, which is still the outcome propagated), and the connection
release is the last event on every exit path; across retries, every attempt
made acquires its own connection and opens its own transaction. -/
theorem transaction_coordinator_spec (opResult : Except DBError α)
    (rollbackOk : Bool) (ops : Nat → Except DBError α) (rbOk : Nat → Bool)
    (name : String) :
    ((txAttempt opResult rollbackOk).2.getLast? = some .release) ∧
    (TxEvent.txCommit ∈ (txAttempt opResult rollbackOk).2 ↔
      ∃ a, opResult = .ok a) ∧
    ((txAttempt opResult rollbackOk).1 = opResult) ∧
    ((TxEvent.txRollback ∈ (txAttempt opResult rollbackOk).2 ∨
      TxEvent.rollbackFailed ∈ (txAttempt opResult rollbackOk).2) ↔
      ∃ e, opResult = .error e) ∧
    ((transactionTrace ops rbOk name).count .acquire =
      (executeTransaction ops rbOk name).2.1 ∧
     (transactionTrace ops rbOk name).count .txBegin =
      (executeTransaction ops rbOk name).2.1) := by
  have hcount : ∀ x, (x = TxEvent.acquire ∨ x = TxEvent.txBegin) →
      (transactionTrace ops rbOk name).count x =
        (executeTransaction ops rbOk name).2.1 := by
    intro x hx
    have hone : ∀ i, ((txAttempt (ops i) (rbOk i)).2).count x = 1 := by
      intro i
      cases h : ops i <;> cases hb : rbOk i <;>
        rcases hx with hx | hx <;> subst hx <;> simp [txAttempt]
    rw [transactionTrace, count_flatMap_eq]
    have hmap : (List.range (executeTransaction ops rbOk name).2.1).map
        (fun i => ((txAttempt (ops i) (rbOk i)).2).count x) =
        (List.range (executeTransaction ops rbOk name).2.1).map
          (fun _ => (1 : Nat)) := by
      apply List.map_congr_left
      intro i _
      exact hone i
    rw [hmap, sum_map_one, List.length_range]
  refine ⟨?_, ?_, ?_, ?_, hcount _ (Or.inl rfl), hcount _ (Or.inr rfl)⟩
  · cases opResult <;> cases rollbackOk <;> rfl
  · cases opResult <;> cases rollbackOk <;> simp [txAttempt]
  · cases opResult <;> cases rollbackOk <;> rfl
  · cases opResult <;> cases rollbackOk <;> simp [txAttempt]

/-- Witness for C7: a lock-wait-timeout failure with a failing rollback still
propagates the original error, with the release last in the trace and no
commit. -/
theorem transaction_coordinator_spec_witness :
    (txAttempt (.error ⟨"ER_LOCK_WAIT_TIMEOUT", "", "lock"⟩ : Except DBError Unit)
        false).1 = .error ⟨"ER_LOCK_WAIT_TIMEOUT", "", "lock"⟩ ∧
    (txAttempt (.error ⟨"ER_LOCK_WAIT_TIMEOUT", "", "lock"⟩ : Except DBError Unit)
        false).2.getLast? = some .release ∧
    ¬ TxEvent.txCommit ∈
      (txAttempt (.error ⟨"ER_LOCK_WAIT_TIMEOUT", "", "lock"⟩ : Except DBError Unit)
        false).2 := by
  have h := transaction_coordinator_spec
      (.error ⟨"ER_LOCK_WAIT_TIMEOUT", "", "lock"⟩ : Except DBError Unit) false
      (fun _ => (.error ⟨"ER_LOCK_WAIT_TIMEOUT", "", "lock"⟩ : Except DBError Unit))
      (fun _ => false) "claimPrize"
  refine ⟨h.2.2.1, h.1, ?_⟩
  intro hc
  rcases h.2.1.mp hc with ⟨a, ha⟩
  exact absurd ha (by simp)

/-! ## Relational state (updated_schema.sql, as used by the route handlers) -/

/-- `Ticket.status` enum (`available`, `sold`, `claimed`). -/
inductive TStatus where
  | available
  | sold
  | claimed
  deriving DecidableEq, Repr

/-- `User.role` enum. -/
inductive Role where
  | owner
  | admin
  | member
  deriving DecidableEq, Repr

/-- A `User` row (only the columns the modelled routes touch). -/
structure Account where
  uid : Nat
  role : Role
  wallet : Rat
  deriving DecidableEq, Repr

/-- A `Ticket` row: `created_by` doubles as the owner reference in the
source (`created_by AS owner_id` in the GET routes), `purchase_id` and
`prize_id` are the nullable foreign keys. `number` is the numeric value of
the 6-digit zero-padded string. -/
structure Ticket where
  tid : Nat
  number : Nat
  price : Rat
  status : TStatus
  createdBy : Option Nat
  purchaseId : Option Nat
  prizeId : Option Nat
  deriving DecidableEq, Repr

/-- A `Purchase` row. -/
structure Purchase where
  pid : Nat
  userId : Nat
  total : Rat
  deriving DecidableEq, Repr

/-- A `Prize` row as the draw route writes it (`INSERT INTO Prize
(amount, rank)`). -/
structure Prize where
  pid : Nat
  amount : Rat
  rank : Nat
  deriving DecidableEq, Repr

/-- The database state: the four tables plus the `AUTO_INCREMENT` counters
the modelled statements consume. -/
structure DB where
  users : List Account
  tickets : List Ticket
  purchases : List Purchase
  prizes : List Prize
  nextPrizeId : Nat
  nextPurchaseId : Nat
  deriving DecidableEq, Repr

/-! ## Draw Engine (src/unnamed/part_008, router.post('/draws')) -/

/-- Pool selector (`poolType` is validated to be `'sold'` or `'all'`). -/
inductive PoolType where
  | soldOnly
  | allTickets
  deriving DecidableEq, Repr

/-- The candidate pool query (part_008:521-529): sold tickets only, or the
whole `Ticket` table. -/
def drawPool (db : DB) : PoolType → List Ticket
  | .soldOnly => db.tickets.filter (fun t => t.status = TStatus.sold)
  | .allTickets => db.tickets

/-- `UPDATE Ticket SET prize_id = ? WHERE ticket_id = ?`. -/
def setPrizeId (ts : List Ticket) (tid pid : Nat) : List Ticket :=
  ts.map (fun t => if t.tid = tid then { t with prizeId := some pid } else t)

/-- `UPDATE Ticket SET prize_id = NULL WHERE prize_id IS NOT NULL`
(part_008:618): every row ends with a NULL `prize_id`. -/
def clearPrizeIds (ts : List Ticket) : List Ticket :=
  ts.map (fun t => { t with prizeId := none })

/-- One optional rank-1..3 link (part_008:637-643): `mainWinners[i]`, if
present, gets its `prize_id` set to the freshly inserted prize's id. -/
def linkMainWinner (mainWinners : List Ticket) (p0 i : Nat)
    (ts : List Ticket) : List Ticket :=
  match mainWinners[i]? with
  | some m => setPrizeId ts m.tid (p0 + i)
  | none => ts

/-- `router.post('/draws')` (part_008:485-698). Inputs besides the request
body: `shuffled` is the outcome of
`[...availableTickets].sort(() => Math.random() - 0.5)` (some reordering of
the pool — the random comparator is a parameter here), and `tail3`/`tail2`
are the drawn tail numbers (`Math.floor(Math.random()*1000)` resp. `*100`).
The whole body runs in one transaction, so an error returns the state
unchanged; on success the prior `Prize` rows and all `Ticket.prize_id`
links are cleared and the five new prizes inserted with ids continuing from
the `AUTO_INCREMENT` counter, ranks 1-3 linked to `shuffled.take 3` and
ranks 4/5 linked to every pool ticket matching the drawn tail digits. -/
def drawRoute (db : DB) (poolType : PoolType) (rewards : List Rat)
    (shuffled : List Ticket) (tail3 tail2 : Nat) : Except ErrCode DB :=
  if rewards.length ≠ 5 then .error .INVALID_REWARDS
  else if rewards.any (fun r => r < 0) then .error .INVALID_REWARD_AMOUNT
  else
    let pool := drawPool db poolType
    if pool.length < 5 then .error .INSUFFICIENT_TICKETS
    else
      let mainWinners := shuffled.take 3
      let tail3Winners := pool.filter (fun t => t.number % 1000 = tail3)
      let tail2Winners := pool.filter (fun t => t.number % 100 = tail2)
      let p0 := db.nextPrizeId
      let ts0 := clearPrizeIds db.tickets
      let ts1 := linkMainWinner mainWinners p0 0 ts0
      let ts2 := linkMainWinner mainWinners p0 1 ts1
      let ts3 := linkMainWinner mainWinners p0 2 ts2
      let ts4 := tail3Winners.foldl (fun acc w => setPrizeId acc w.tid (p0 + 3)) ts3
      let ts5 := tail2Winners.foldl (fun acc w => setPrizeId acc w.tid (p0 + 4)) ts4
      .ok { db with
        tickets := ts5,
        prizes := [⟨p0, rewards.getD 0 0, 1⟩, ⟨p0 + 1, rewards.getD 1 0, 2⟩,
                   ⟨p0 + 2, rewards.getD 2 0, 3⟩, ⟨p0 + 3, rewards.getD 3 0, 4⟩,
                   ⟨p0 + 4, rewards.getD 4 0, 5⟩],
        nextPrizeId := p0 + 5 }

/-- State visible after the draw request: the route wraps everything in
`beginTransaction`/`commit` with `rollback` on error, so a failed draw
leaves the database unchanged. -/
def dbAfterDraw (db : DB) (poolType : PoolType) (rewards : List Rat)
    (shuffled : List Ticket) (tail3 tail2 : Nat) : DB :=
  match drawRoute db poolType rewards shuffled tail3 tail2 with
  | .ok db' => db'
  | .error _ => db

/-! ## Claim C4 -/

/-- **C4.** A draw whose candidate pool (selected by `poolType`) has fewer
than 5 tickets fails with the named `INSUFFICIENT_TICKETS` error and leaves
the database — in particular the stored `Prize` rows and the
`Ticket.prize_id` links — unchanged. -/
theorem draw_pool_insufficient (db : DB) (poolType : PoolType)
    (rewards : List Rat) (shuffled : List Ticket) (tail3 tail2 : Nat)
    (hlen : rewards.length = 5) (hval : ∀ r ∈ rewards, 0 ≤ r)
    (hpool : (drawPool db poolType).length < 5) :
    drawRoute db poolType rewards shuffled tail3 tail2 =
      .error .INSUFFICIENT_TICKETS ∧
    dbAfterDraw db poolType rewards shuffled tail3 tail2 = db := by
  have hany : rewards.any (fun r => r < 0) = false := by
    rw [List.any_eq_false]
    intro r hr
    simpa using hval r hr
  have hdraw : drawRoute db poolType rewards shuffled tail3 tail2 =
      .error .INSUFFICIENT_TICKETS := by
    unfold drawRoute
    rw [hlen]
    simp only [ne_eq, not_true_eq_false, reduceIte, hany, Bool.false_eq_true]
    simp [hpool]
  exact ⟨hdraw, by rw [dbAfterDraw, hdraw]⟩

/-- Witness for C4: a database holding a single sold ticket and one stored
prize linked to it; the draw fails with `INSUFFICIENT_TICKETS` and the
prize row and link survive. -/
theorem draw_pool_insufficient_witness :
    drawRoute
        ⟨[⟨1, .admin, 0⟩], [⟨1, 123456, 80, .sold, some 2, some 1, some 7⟩],
         [⟨1, 2, 80⟩], [⟨7, 500, 1⟩], 8, 2⟩
        .soldOnly [1000000, 500000, 100000, 50000, 10000] [] 999 99 =
      .error .INSUFFICIENT_TICKETS ∧
    dbAfterDraw
        ⟨[⟨1, .admin, 0⟩], [⟨1, 123456, 80, .sold, some 2, some 1, some 7⟩],
         [⟨1, 2, 80⟩], [⟨7, 500, 1⟩], 8, 2⟩
        .soldOnly [1000000, 500000, 100000, 50000, 10000] [] 999 99 =
      ⟨[⟨1, .admin, 0⟩], [⟨1, 123456, 80, .sold, some 2, some 1, some 7⟩],
       [⟨1, 2, 80⟩], [⟨7, 500, 1⟩], 8, 2⟩ :=
  draw_pool_insufficient _ _ _ _ _ _ rfl (by decide) (by decide)

/-! ## Claim C5 -/

/-- `Except` success test. -/
def isOkB : Except ErrCode DB → Bool
  | .ok _ => true
  | .error _ => false

/-- The claim's reading of a draw result: every rank 1..5 has a Prize row
with exactly one ticket bound to it (5 exclusive single-ticket winners). -/
def fiveExclusiveRanks (db : DB) : Prop :=
  ∀ r ∈ [1, 2, 3, 4, 5], ∃ p ∈ db.prizes, p.rank = r ∧
    (db.tickets.filter (fun t => t.prizeId = some p.pid)).length = 1

instance (db : DB) : Decidable (fiveExclusiveRanks db) := by
  unfold fiveExclusiveRanks
  infer_instance

/-- A 5-sold-ticket database on which the draw succeeds. -/
def exDrawDb : DB :=
  ⟨[⟨1, .admin, 0⟩, ⟨2, .member, 1000⟩],
   [⟨1, 111111, 80, .sold, some 2, some 1, none⟩,
    ⟨2, 222222, 80, .sold, some 2, some 1, none⟩,
    ⟨3, 333333, 80, .sold, some 2, some 1, none⟩,
    ⟨4, 444444, 80, .sold, some 2, some 1, none⟩,
    ⟨5, 555555, 80, .sold, some 2, some 1, none⟩],
   [⟨1, 2, 400⟩], [], 1, 2⟩

/-- **C5 counterexample.** On `exDrawDb` (pool of 5 sold tickets, no number
ending in `999`/`99`), a successful draw binds tickets only to ranks 1..3:
ranks 4 and 5 get Prize rows with zero bound tickets, so the draw does not
"take 5 distinct tickets as ranks 1..5" with "one Prize per rank bound to
its winning ticket". -/
theorem draw_five_exclusive_counterexample :
    isOkB (drawRoute exDrawDb .soldOnly [1000000, 500000, 100000, 50000, 10000]
      (drawPool exDrawDb .soldOnly) 999 99) = true ∧
    ¬ fiveExclusiveRanks (dbAfterDraw exDrawDb .soldOnly
      [1000000, 500000, 100000, 50000, 10000]
      (drawPool exDrawDb .soldOnly) 999 99) := by
  decide

/-- Pointwise form of a batch of links with one shared prize id (the
tail-digit link loops, part_008:655-661 and 672-678). -/
lemma foldl_setPrizeId_group (ws : List Ticket) (pid : Nat) (ts : List Ticket) :
    ws.foldl (fun acc w => setPrizeId acc w.tid pid) ts =
      ts.map (fun t =>
        if ws.any (fun w => w.tid = t.tid) then { t with prizeId := some pid }
        else t) := by
  induction ws generalizing ts with
  | nil => simp
  | cons w ws ih =>
    rw [List.foldl_cons, ih, setPrizeId, List.map_map]
    apply List.map_congr_left
    intro t _
    by_cases h1 : t.tid = w.tid
    · by_cases h2 : ws.any (fun w' => w'.tid = t.tid) = true
      · simp at h2
        simp [Function.comp, h1.symm, h2]
      · simp at h2
        simp [Function.comp, h1.symm, h2]
    · have h1' : ¬ w.tid = t.tid := fun hh => h1 hh.symm
      by_cases h2 : ws.any (fun w' => w'.tid = t.tid) = true
      · simp at h2
        simp [Function.comp, h1, h1', h2]
      · simp at h2
        simp [Function.comp, h1, h1', h2]

/-- Whether `t` is the rank-`i+1` main winner (`mainWinners[i]`, the `i`-th
element of the first three shuffled tickets). -/
def mainHit (shuffled : List Ticket) (i : Nat) (t : Ticket) : Bool :=
  match (shuffled.take 3)[i]? with
  | some m => t.tid = m.tid
  | none => false

/-- The `prize_id` a ticket ends up with after a successful draw: the last
matching link statement wins — tail-2 links run last, then tail-3 links,
then the rank-3, rank-2, rank-1 links, and every other ticket was reset to
NULL. -/
def expectedPrizeLink (db : DB) (poolType : PoolType) (shuffled : List Ticket)
    (tail3 tail2 : Nat) (t : Ticket) : Option Nat :=
  if ((drawPool db poolType).filter (fun u => u.number % 100 = tail2)).any
      (fun w => w.tid = t.tid) then
    some (db.nextPrizeId + 4)
  else if ((drawPool db poolType).filter (fun u => u.number % 1000 = tail3)).any
      (fun w => w.tid = t.tid) then
    some (db.nextPrizeId + 3)
  else if mainHit shuffled 2 t then some (db.nextPrizeId + 2)
  else if mainHit shuffled 1 t then some (db.nextPrizeId + 1)
  else if mainHit shuffled 0 t then some db.nextPrizeId
  else none

/-- **C5 amended.** For every successful draw (valid 5-reward list, pool of
at least 5, the random-comparator sort producing some permutation of the
pool), the engine takes the **first 3** shuffled tickets — distinct pool
members — as the exclusive winners of ranks 1..3; ranks 4 and 5 are
tail-digit prizes linked to every pool ticket matching the drawn 3- or
2-digit tail (possibly zero or many, a later tail link overriding a
rank-1..3 link); prior Prize rows and all `Ticket.prize_id` links are
cleared and exactly one Prize row per rank 1..5 is written. -/
theorem draw_engine_amended (db : DB) (poolType : PoolType)
    (rewards : List Rat) (shuffled : List Ticket) (tail3 tail2 : Nat)
    (hlen : rewards.length = 5) (hval : ∀ r ∈ rewards, 0 ≤ r)
    (hperm : shuffled.Perm (drawPool db poolType))
    (hnodup : (db.tickets.map (fun t => t.tid)).Nodup)
    (hpool : 5 ≤ (drawPool db poolType).length) :
    (∃ db', drawRoute db poolType rewards shuffled tail3 tail2 = .ok db') ∧
    (dbAfterDraw db poolType rewards shuffled tail3 tail2).prizes =
      [⟨db.nextPrizeId, rewards.getD 0 0, 1⟩,
       ⟨db.nextPrizeId + 1, rewards.getD 1 0, 2⟩,
       ⟨db.nextPrizeId + 2, rewards.getD 2 0, 3⟩,
       ⟨db.nextPrizeId + 3, rewards.getD 3 0, 4⟩,
       ⟨db.nextPrizeId + 4, rewards.getD 4 0, 5⟩] ∧
    (shuffled.take 3).length = 3 ∧
    ((shuffled.take 3).map (fun t => t.tid)).Nodup ∧
    (∀ t ∈ shuffled.take 3, t ∈ drawPool db poolType) ∧
    (dbAfterDraw db poolType rewards shuffled tail3 tail2).tickets =
      db.tickets.map (fun t =>
        { t with prizeId := expectedPrizeLink db poolType shuffled tail3 tail2 t }) := by
  have hany : rewards.any (fun r => r < 0) = false := by
    rw [List.any_eq_false]
    intro r hr
    simpa using hval r hr
  have hlenshuf : 5 ≤ shuffled.length := by
    rw [hperm.length_eq]
    exact hpool
  have hpoolsub : List.Sublist (drawPool db poolType) db.tickets := by
    cases poolType with
    | soldOnly => exact List.filter_sublist _
    | allTickets => exact List.Sublist.refl _
  have hpoolnodup : ((drawPool db poolType).map (fun t => t.tid)).Nodup :=
    (hpoolsub.map (fun t => t.tid)).nodup hnodup
  have hshufnodup : (shuffled.map (fun t => t.tid)).Nodup :=
    ((hperm.map (fun t => t.tid)).nodup_iff).mpr hpoolnodup
  obtain ⟨a, b, c, rest, rfl⟩ :
      ∃ a b c rest, shuffled = a :: b :: c :: rest := by
    match shuffled, hlenshuf with
    | a :: b :: c :: rest, _ => exact ⟨a, b, c, rest, rfl⟩
  have htake : (a :: b :: c :: rest).take 3 = [a, b, c] := rfl
  have hlt : ¬ (drawPool db poolType).length < 5 := by omega
  have hroute : drawRoute db poolType rewards (a :: b :: c :: rest) tail3 tail2 =
      .ok { db with
        tickets :=
          ((drawPool db poolType).filter (fun t => t.number % 100 = tail2)).foldl
            (fun acc w => setPrizeId acc w.tid (db.nextPrizeId + 4))
            (((drawPool db poolType).filter (fun t => t.number % 1000 = tail3)).foldl
              (fun acc w => setPrizeId acc w.tid (db.nextPrizeId + 3))
              (setPrizeId
                (setPrizeId
                  (setPrizeId (clearPrizeIds db.tickets) a.tid db.nextPrizeId)
                  b.tid (db.nextPrizeId + 1))
                c.tid (db.nextPrizeId + 2))),
        prizes := [⟨db.nextPrizeId, rewards.getD 0 0, 1⟩,
                   ⟨db.nextPrizeId + 1, rewards.getD 1 0, 2⟩,
                   ⟨db.nextPrizeId + 2, rewards.getD 2 0, 3⟩,
                   ⟨db.nextPrizeId + 3, rewards.getD 3 0, 4⟩,
                   ⟨db.nextPrizeId + 4, rewards.getD 4 0, 5⟩],
        nextPrizeId := db.nextPrizeId + 5 } := by
    unfold drawRoute
    rw [hlen]
    simp only [ne_eq, not_true_eq_false, reduceIte, hany, Bool.false_eq_true]
    simp only [hlt, reduceIte, linkMainWinner, htake]
    rfl
  have hafter : dbAfterDraw db poolType rewards (a :: b :: c :: rest) tail3 tail2 =
      { db with
        tickets :=
          ((drawPool db poolType).filter (fun t => t.number % 100 = tail2)).foldl
            (fun acc w => setPrizeId acc w.tid (db.nextPrizeId + 4))
            (((drawPool db poolType).filter (fun t => t.number % 1000 = tail3)).foldl
              (fun acc w => setPrizeId acc w.tid (db.nextPrizeId + 3))
              (setPrizeId
                (setPrizeId
                  (setPrizeId (clearPrizeIds db.tickets) a.tid db.nextPrizeId)
                  b.tid (db.nextPrizeId + 1))
                c.tid (db.nextPrizeId + 2))),
        prizes := [⟨db.nextPrizeId, rewards.getD 0 0, 1⟩,
                   ⟨db.nextPrizeId + 1, rewards.getD 1 0, 2⟩,
                   ⟨db.nextPrizeId + 2, rewards.getD 2 0, 3⟩,
                   ⟨db.nextPrizeId + 3, rewards.getD 3 0, 4⟩,
                   ⟨db.nextPrizeId + 4, rewards.getD 4 0, 5⟩],
        nextPrizeId := db.nextPrizeId + 5 } := by
    rw [dbAfterDraw, hroute]
  refine ⟨⟨_, hroute⟩, by rw [hafter], rfl, ?_, ?_, ?_⟩
  · have hsubl := (List.take_sublist 3 (a :: b :: c :: rest)).map (fun t => t.tid)
    rw [htake] at hsubl
    exact hsubl.nodup hshufnodup
  · intro t ht
    rw [htake] at ht
    exact hperm.subset (List.take_subset 3 _ (htake ▸ ht))
  · have L1 : setPrizeId (clearPrizeIds db.tickets) a.tid db.nextPrizeId =
        db.tickets.map (fun t =>
          { t with prizeId :=
              if t.tid = a.tid then some db.nextPrizeId else none }) := by
      unfold setPrizeId clearPrizeIds
      rw [List.map_map]
      apply List.map_congr_left
      intro t _
      by_cases h : t.tid = a.tid <;> simp [Function.comp, h]
    have L2 : setPrizeId
        (db.tickets.map (fun t =>
          { t with prizeId :=
              if t.tid = a.tid then some db.nextPrizeId else none }))
        b.tid (db.nextPrizeId + 1) =
        db.tickets.map (fun t =>
          { t with prizeId :=
              if t.tid = b.tid then some (db.nextPrizeId + 1)
              else if t.tid = a.tid then some db.nextPrizeId else none }) := by
      unfold setPrizeId
      rw [List.map_map]
      apply List.map_congr_left
      intro t _
      by_cases h : t.tid = b.tid <;> simp [Function.comp, h]
    have L3 : setPrizeId
        (db.tickets.map (fun t =>
          { t with prizeId :=
              if t.tid = b.tid then some (db.nextPrizeId + 1)
              else if t.tid = a.tid then some db.nextPrizeId else none }))
        c.tid (db.nextPrizeId + 2) =
        db.tickets.map (fun t =>
          { t with prizeId :=
              if t.tid = c.tid then some (db.nextPrizeId + 2)
              else if t.tid = b.tid then some (db.nextPrizeId + 1)
              else if t.tid = a.tid then some db.nextPrizeId else none }) := by
      unfold setPrizeId
      rw [List.map_map]
      apply List.map_congr_left
      intro t _
      by_cases h : t.tid = c.tid <;> simp [Function.comp, h]
    have L4 : ((drawPool db poolType).filter (fun t => t.number % 1000 = tail3)).foldl
        (fun acc w => setPrizeId acc w.tid (db.nextPrizeId + 3))
        (db.tickets.map (fun t =>
          { t with prizeId :=
              if t.tid = c.tid then some (db.nextPrizeId + 2)
              else if t.tid = b.tid then some (db.nextPrizeId + 1)
              else if t.tid = a.tid then some db.nextPrizeId else none })) =
        db.tickets.map (fun t =>
          { t with prizeId :=
              if (((drawPool db poolType).filter (fun u => u.number % 1000 = tail3)).any (fun w => w.tid = t.tid)) then some (db.nextPrizeId + 3)
              else if t.tid = c.tid then some (db.nextPrizeId + 2)
              else if t.tid = b.tid then some (db.nextPrizeId + 1)
              else if t.tid = a.tid then some db.nextPrizeId else none }) := by
      rw [foldl_setPrizeId_group, List.map_map]
      apply List.map_congr_left
      intro t _
      cases h : ((drawPool db poolType).filter (fun u => u.number % 1000 = tail3)).any (fun w => w.tid = t.tid) <;>
        simp [Function.comp, h]
    have L5 : ((drawPool db poolType).filter (fun t => t.number % 100 = tail2)).foldl
        (fun acc w => setPrizeId acc w.tid (db.nextPrizeId + 4))
        (db.tickets.map (fun t =>
          { t with prizeId :=
              if (((drawPool db poolType).filter (fun u => u.number % 1000 = tail3)).any (fun w => w.tid = t.tid)) then some (db.nextPrizeId + 3)
              else if t.tid = c.tid then some (db.nextPrizeId + 2)
              else if t.tid = b.tid then some (db.nextPrizeId + 1)
              else if t.tid = a.tid then some db.nextPrizeId else none })) =
        db.tickets.map (fun t =>
          { t with prizeId :=
              expectedPrizeLink db poolType (a :: b :: c :: rest) tail3 tail2 t }) := by
      rw [foldl_setPrizeId_group, List.map_map]
      apply List.map_congr_left
      intro t _
      cases h : ((drawPool db poolType).filter (fun u => u.number % 100 = tail2)).any (fun w => w.tid = t.tid) <;>
        simp [Function.comp, expectedPrizeLink, mainHit, h]
    rw [hafter]
    simp only
    rw [L1, L2, L3, L4, L5]

/-- Witness for the amended C5 on `exDrawDb`: the draw succeeds and the
resulting prize table and links match the characterization. -/
theorem draw_engine_amended_witness :
    (∃ db', drawRoute exDrawDb .soldOnly [1000000, 500000, 100000, 50000, 10000]
      (drawPool exDrawDb .soldOnly) 999 99 = .ok db') ∧
    (dbAfterDraw exDrawDb .soldOnly [1000000, 500000, 100000, 50000, 10000]
      (drawPool exDrawDb .soldOnly) 999 99).tickets =
      exDrawDb.tickets.map (fun t =>
        { t with prizeId := (expectedPrizeLink exDrawDb .soldOnly (drawPool exDrawDb .soldOnly) 999 99 t) }) := by
  have h := draw_engine_amended exDrawDb .soldOnly
    [1000000, 500000, 100000, 50000, 10000] (drawPool exDrawDb .soldOnly) 999 99
    rfl (by decide) (List.Perm.refl _) (by decide) (by decide)
  exact ⟨h.1, h.2.2.2.2.2⟩

/-! ## Reset and ticket creation
(src/unnamed/part_008, router.post('/reset') and router.post('/create-tickets')) -/

/-- `role IN ('owner','admin')`. -/
def privilegedB (u : Account) : Bool :=
  u.role = Role.owner || u.role = Role.admin

/-- `SELECT user_id FROM User WHERE role IN ('owner','admin') ORDER BY
user_id LIMIT 1` (part_008:61-63). -/
def adminUserId? (db : DB) : Option Nat :=
  ((db.users.filter privilegedB).map (fun u => u.uid)).min?

/-- The reset route's four DELETE statements in source order
(part_008:73-101), each with its adjacent `AUTO_INCREMENT = 1` reset.
There is no `beginTransaction` in this route: every statement autocommits
as it executes. -/
def resetSteps : List (DB → DB) :=
  [fun s => { s with purchases := [], nextPurchaseId := 1 },
   fun s => { s with prizes := [], nextPrizeId := 1 },
   fun s => { s with tickets := [] },
   fun s => { s with users := s.users.filter privilegedB }]

/-- `Except` success test (any payload / error types). -/
def exceptIsOk : Except ε α → Bool
  | .ok _ => true
  | .error _ => false

instance [DecidableEq ε] [DecidableEq α] : DecidableEq (Except ε α) := fun x y =>
  match x, y with
  | .ok a, .ok b =>
    if h : a = b then isTrue (by rw [h])
    else isFalse (fun hh => h (Except.ok.inj hh))
  | .error e, .error f =>
    if h : e = f then isTrue (by rw [h])
    else isFalse (fun hh => h (Except.error.inj hh))
  | .ok _, .error _ => isFalse (fun hh => Except.noConfusion hh)
  | .error _, .ok _ => isFalse (fun hh => Except.noConfusion hh)

/-- `router.post('/reset')` (part_008:49-148): find an admin (fatal
`No admin user found!` error before any delete when absent), then run the
deletes sequentially. `failAfter = some k` injects a storage fault after the
first `k` statements have already committed (there is no rollback);
`failAfter = none` is the fault-free run. Returns the outcome and the
resulting state. -/
def resetRoute (db : DB) (failAfter : Option Nat) : Except ErrCode Unit × DB :=
  match adminUserId? db with
  | none => (.error .NO_ADMIN_FOUND, db)
  | some _ =>
    match failAfter with
    | none => (.ok (), resetSteps.foldl (fun s f => f s) db)
    | some k => (.error .DB_FAULT, (resetSteps.take k).foldl (fun s f => f s) db)

/-- `router.post('/create-tickets')` (part_008:151-251): refuse when any
ticket exists; otherwise insert one ticket per generated number with ids
restarting at 1 (`AUTO_INCREMENT = 1`), price `80.00`, default status
`available`, and `created_by` set to the admin user id (falling back to 1).
`numbers` stands for the `Math.random` generation loop's output, which by
construction (a `Set` grown to `desiredCount`) is 120 distinct values below
1000000. -/
def freshTickets (adminId : Nat) (numbers : List Nat) : List Ticket :=
  ((List.range numbers.length).zip numbers).map
    (fun p => ⟨p.1 + 1, p.2, 80, .available, some adminId, none, none⟩)

def createTickets (db : DB) (numbers : List Nat) : Except ErrCode DB :=
  if db.tickets.length > 0 then .error .TICKETS_ALREADY_EXIST
  else
    .ok { db with tickets := freshTickets ((adminUserId? db).getD 1) numbers }

/-- State visible after `createTickets` (errors change nothing: the only
write is the batch insert). -/
def dbAfterCreate (db : DB) (numbers : List Nat) : DB :=
  match createTickets db numbers with
  | .ok db' => db'
  | .error _ => db

/-! ## Claim C6 -/

/-- A populated database with one owner account, a member, a sold ticket, a
purchase and a prize. -/
def exResetDb : DB :=
  ⟨[⟨1, .owner, 0⟩, ⟨2, .member, 100⟩],
   [⟨1, 111111, 80, .sold, some 2, some 1, none⟩],
   [⟨1, 2, 80⟩], [⟨1, 500, 1⟩], 2, 2⟩

/-- **C6 counterexample.** A fault-free reset on `exResetDb` completes with
zero tickets: the reset operation does not regenerate any ticket batch
(regeneration is the separate create-tickets endpoint), contradicting the
claim that reset itself leaves 120 fresh tickets. -/
theorem reset_counterexample :
    exceptIsOk (resetRoute exResetDb none).1 = true ∧
    (resetRoute exResetDb none).2.tickets.length = 0 ∧
    ¬ (resetRoute exResetDb none).2.tickets.length = 120 := by
  decide

/-- **C6 amended.** Reset fails fatally before deleting anything when no
admin/owner account exists; a completed reset deletes all purchases, prizes
and tickets and keeps exactly the admin/owner accounts — but it runs its
deletes as separate autocommitted statements (no transaction), so a fault
after the first delete leaves a half-reset state (purchases gone, tickets
still present), and it does not regenerate tickets: the separate
create-tickets operation, runnable only when no ticket exists, inserts one
ticket per generated number (120 distinct 6-digit numbers in production) at
price 80, status available, owned by the admin id. -/
theorem reset_amended (db : DB) (numbers : List Nat) (k : Nat) :
    (adminUserId? db = none →
      resetRoute db none = (.error .NO_ADMIN_FOUND, db) ∧
      resetRoute db (some k) = (.error .NO_ADMIN_FOUND, db)) ∧
    (adminUserId? db ≠ none →
      resetRoute db none =
        (.ok (), { users := db.users.filter privilegedB, tickets := [],
                   purchases := [], prizes := [],
                   nextPrizeId := 1, nextPurchaseId := 1 })) ∧
    (adminUserId? db ≠ none →
      (resetRoute db (some 1)).1 = .error .DB_FAULT ∧
      (resetRoute db (some 1)).2.purchases = [] ∧
      (resetRoute db (some 1)).2.tickets = db.tickets) ∧
    (db.tickets = [] →
      createTickets db numbers = .ok (dbAfterCreate db numbers) ∧
      (dbAfterCreate db numbers).tickets.length = numbers.length ∧
      (dbAfterCreate db numbers).tickets.map (fun t => t.number) = numbers ∧
      ∀ t ∈ (dbAfterCreate db numbers).tickets,
        t.price = 80 ∧ t.status = .available ∧
        t.createdBy = some ((adminUserId? db).getD 1)) := by
  refine ⟨?_, ?_, ?_, ?_⟩
  · intro h
    unfold resetRoute
    rw [h]
    exact ⟨rfl, rfl⟩
  · intro h
    obtain ⟨x, hx⟩ := Option.ne_none_iff_exists'.mp h
    unfold resetRoute
    rw [hx]
    rfl
  · intro h
    obtain ⟨x, hx⟩ := Option.ne_none_iff_exists'.mp h
    unfold resetRoute
    rw [hx]
    exact ⟨rfl, rfl, rfl⟩
  · intro h
    have hempty : ¬ db.tickets.length > 0 := by
      rw [h]
      simp
    have hcreate : createTickets db numbers =
        .ok { db with
          tickets := freshTickets ((adminUserId? db).getD 1) numbers } := by
      unfold createTickets
      rw [if_neg hempty]
    have hafter : dbAfterCreate db numbers =
        { db with
          tickets := freshTickets ((adminUserId? db).getD 1) numbers } := by
      rw [dbAfterCreate, hcreate]
    refine ⟨by rw [hcreate, hafter], ?_, ?_, ?_⟩
    · rw [hafter]
      simp [freshTickets, List.length_zip]
    · rw [hafter]
      unfold freshTickets
      simp only [List.map_map]
      have hcomp : (fun t : Ticket => t.number) ∘
          (fun p : Nat × Nat => (⟨p.1 + 1, p.2, 80, .available,
            some ((adminUserId? db).getD 1), none, none⟩ : Ticket)) =
          Prod.snd := rfl
      rw [hcomp, List.map_snd_zip]
      simp
    · rw [hafter]
      intro t ht
      simp only [freshTickets, List.mem_map] at ht
      obtain ⟨p, _, rfl⟩ := ht
      exact ⟨rfl, rfl, rfl⟩

/-- Witness for the amended C6: on `exResetDb` the reset completes to
exactly the owner account and empty tables, and on the emptied state
create-tickets inserts 120 available tickets owned by the admin. -/
theorem reset_amended_witness :
    resetRoute exResetDb none =
      (.ok (), { users := [⟨1, .owner, 0⟩], tickets := [], purchases := [],
                 prizes := [], nextPrizeId := 1, nextPurchaseId := 1 }) ∧
    (dbAfterCreate (resetRoute exResetDb none).2
      (List.range 120)).tickets.length = 120 := by
  constructor
  · exact (reset_amended exResetDb [] 0).2.1 (by decide)
  · have h := (reset_amended (resetRoute exResetDb none).2 (List.range 120) 0).2.2.2
      (by decide)
    rw [h.2.1]
    decide

/-! ## Purchase (src/unnamed/part_013, router.post('/purchase')) -/

/-- `SELECT ... FROM Ticket WHERE ticket_id IN (...) AND status =
'available'` (part_013:76-79). -/
def availableRequested (db : DB) (tids : List Nat) : List Ticket :=
  db.tickets.filter (fun t => t.tid ∈ tids ∧ t.status = TStatus.available)

/-- `UPDATE User SET wallet = ? WHERE user_id = ?` with the pre-computed
`currentWallet - totalCost` (part_013:108-112). -/
def purchaseWalletWrite (uid : Nat) (newWallet : Rat) (s : DB) : DB :=
  { s with users := (s.users.map (fun u => if u.uid = uid then { u with wallet := newWallet } else u)) }

/-- `INSERT INTO Purchase (user_id, date, total_price)` (part_013:115-118). -/
def purchaseInsert (uid : Nat) (total : Rat) (s : DB) : DB :=
  { s with purchases := s.purchases ++ [⟨s.nextPurchaseId, uid, total⟩],
           nextPurchaseId := s.nextPurchaseId + 1 }

/-- `UPDATE Ticket SET status = 'sold', created_by = ?, purchase_id = ?
WHERE ticket_id IN (...)` (part_013:121-124). -/
def purchaseTicketWrite (uid newPid : Nat) (tids : List Nat) (s : DB) : DB :=
  { s with tickets := (s.tickets.map (fun t =>
      if t.tid ∈ tids then
        { t with status := TStatus.sold, createdBy := some uid, purchaseId := some newPid }
      else t)) }

/-- `router.post('/purchase')` (part_013:64-141). There is no
`beginTransaction`: the three writes autocommit one by one.
`failAt = some k` injects a storage fault on write statement `k` (0-based),
after the earlier writes have already committed; `failAt = none` is the
fault-free run. Returns the outcome and resulting state. -/
def purchaseRoute (db : DB) (uid : Nat) (tids : List Nat)
    (failAt : Option Nat) : Except ErrCode Unit × DB :=
  if tids.isEmpty then (.error .NO_TICKETS_SELECTED, db)
  else
    let avail := availableRequested db tids
    if avail.length ≠ tids.length then (.error .TICKETS_NOT_AVAILABLE, db)
    else
      match db.users.find? (fun u => u.uid = uid) with
      | none => (.error .USER_NOT_FOUND, db)
      | some user =>
        let total := (avail.map (fun t => t.price)).sum
        if user.wallet < total then (.error .INSUFFICIENT_FUNDS, db)
        else
          let newPid := db.nextPurchaseId
          match failAt with
          | some 0 => (.error .DB_FAULT, db)
          | some 1 => (.error .DB_FAULT, purchaseWalletWrite uid (user.wallet - total) db)
          | some _ => (.error .DB_FAULT,
              purchaseInsert uid total (purchaseWalletWrite uid (user.wallet - total) db))
          | none => (.ok (),
              purchaseTicketWrite uid newPid tids
                (purchaseInsert uid total (purchaseWalletWrite uid (user.wallet - total) db)))

/-! ## Claim C2 -/

/-- A member with wallet 100 and one available ticket priced 80. -/
def exPurchaseDb : DB :=
  ⟨[⟨1, .owner, 0⟩, ⟨2, .member, 100⟩],
   [⟨1, 111111, 80, .available, some 1, none, none⟩],
   [], [], 1, 1⟩

lemma exPurchase_avail : availableRequested exPurchaseDb [1] =
    [⟨1, 111111, 80, .available, some 1, none, none⟩] := by
  decide

lemma exPurchase_sum :
    ((availableRequested exPurchaseDb [1]).map (fun t => t.price)).sum = 80 := by
  rw [exPurchase_avail]
  norm_num

lemma exPurchase_find : exPurchaseDb.users.find? (fun u => u.uid = 2) =
    some ⟨2, .member, 100⟩ := by
  decide

/-- **C2 counterexample.** On `exPurchaseDb`, a purchase of ticket 1 by
user 2 that passes validation but hits a storage fault on the `Purchase`
insert (the second write) reports an error, yet leaves the wallet already
deducted (100 → 20) while the ticket is still `available`: the route has no
transaction, so a failed step does **not** leave both tickets and wallet
unchanged. -/
theorem purchase_no_transaction_counterexample :
    (purchaseRoute exPurchaseDb 2 [1] (some 1)).1 = .error .DB_FAULT ∧
    (purchaseRoute exPurchaseDb 2 [1] (some 1)).2.users =
      [⟨1, .owner, 0⟩, ⟨2, .member, 20⟩] ∧
    (purchaseRoute exPurchaseDb 2 [1] (some 1)).2.tickets =
      exPurchaseDb.tickets := by
  have h : purchaseRoute exPurchaseDb 2 [1] (some 1) =
      (.error .DB_FAULT, purchaseWalletWrite 2 20 exPurchaseDb) := by
    unfold purchaseRoute
    rw [exPurchase_avail, exPurchase_find]
    norm_num
  rw [h]
  refine ⟨rfl, by decide, rfl⟩

/-- **C2 amended.** The purchase route validates before writing: an empty
selection, an unavailable/unknown ticket, an unknown user, or insufficient
funds each reject the request with the state unchanged. A fault-free run
that passes validation performs all three writes — wallet deducted by the
total price, one Purchase row inserted, the requested tickets set to
sold/owner/purchase. But the three writes are separate autocommitted
statements (no transaction): a fault on the Purchase insert leaves the
wallet deducted while the tickets are untouched, so partial effects are
observable. -/
theorem purchase_amended (db : DB) (uid : Nat) (tids : List Nat) :
    (tids.isEmpty = true → ∀ failAt,
      purchaseRoute db uid tids failAt = (.error .NO_TICKETS_SELECTED, db)) ∧
    (tids.isEmpty = false →
      (availableRequested db tids).length ≠ tids.length → ∀ failAt,
      purchaseRoute db uid tids failAt = (.error .TICKETS_NOT_AVAILABLE, db)) ∧
    (tids.isEmpty = false →
      (availableRequested db tids).length = tids.length →
      db.users.find? (fun u => u.uid = uid) = none → ∀ failAt,
      purchaseRoute db uid tids failAt = (.error .USER_NOT_FOUND, db)) ∧
    (∀ user, tids.isEmpty = false →
      (availableRequested db tids).length = tids.length →
      db.users.find? (fun u => u.uid = uid) = some user →
      user.wallet < ((availableRequested db tids).map (fun t => t.price)).sum →
      ∀ failAt,
      purchaseRoute db uid tids failAt = (.error .INSUFFICIENT_FUNDS, db)) ∧
    (∀ user, tids.isEmpty = false →
      (availableRequested db tids).length = tids.length →
      db.users.find? (fun u => u.uid = uid) = some user →
      ((availableRequested db tids).map (fun t => t.price)).sum ≤ user.wallet →
      purchaseRoute db uid tids none =
        (.ok (), purchaseTicketWrite uid db.nextPurchaseId tids
          (purchaseInsert uid ((availableRequested db tids).map (fun t => t.price)).sum
            (purchaseWalletWrite uid
              (user.wallet - ((availableRequested db tids).map (fun t => t.price)).sum) db))) ∧
      purchaseRoute db uid tids (some 1) =
        (.error .DB_FAULT,
          purchaseWalletWrite uid
            (user.wallet - ((availableRequested db tids).map (fun t => t.price)).sum) db)) := by
  refine ⟨?_, ?_, ?_, ?_, ?_⟩
  · intro h failAt
    unfold purchaseRoute
    rw [h]
    rfl
  · intro hne hlen failAt
    unfold purchaseRoute
    rw [hne]
    simp only [Bool.false_eq_true, if_false]
    rw [if_pos hlen]
  · intro hne hava hfind failAt
    unfold purchaseRoute
    rw [hne]
    simp only [Bool.false_eq_true, if_false, hfind]
    rw [if_neg (by simpa using hava)]
  · intro user hne hava hfind hlt failAt
    unfold purchaseRoute
    rw [hne]
    simp only [Bool.false_eq_true, if_false, hfind]
    rw [if_neg (by simpa using hava)]
    rw [if_pos hlt]
  · intro user hne hava hfind hfunds
    have hnlt : ¬ user.wallet <
        ((availableRequested db tids).map (fun t => t.price)).sum :=
      not_lt.mpr hfunds
    have hEq : ∀ failAt, purchaseRoute db uid tids failAt =
        (match failAt with
         | some 0 => (.error .DB_FAULT, db)
         | some 1 => (.error .DB_FAULT,
             purchaseWalletWrite uid
               (user.wallet - ((availableRequested db tids).map (fun t => t.price)).sum) db)
         | some _ => (.error .DB_FAULT,
             purchaseInsert uid ((availableRequested db tids).map (fun t => t.price)).sum
               (purchaseWalletWrite uid
                 (user.wallet - ((availableRequested db tids).map (fun t => t.price)).sum) db))
         | none => (.ok (),
             purchaseTicketWrite uid db.nextPurchaseId tids
               (purchaseInsert uid ((availableRequested db tids).map (fun t => t.price)).sum
                 (purchaseWalletWrite uid
                   (user.wallet - ((availableRequested db tids).map (fun t => t.price)).sum) db)))) := by
      intro failAt
      unfold purchaseRoute
      rw [hne]
      simp only [Bool.false_eq_true, if_false, hfind]
      rw [if_neg (by simpa using hava)]
      rw [if_neg hnlt]
    exact ⟨by rw [hEq none], by rw [hEq (some 1)]⟩

/-- A member with wallet 100 and two available tickets priced 80 each: the
spec's balance-100, total-160 example. -/
def exPurchaseDb2 : DB :=
  ⟨[⟨1, .owner, 0⟩, ⟨2, .member, 100⟩],
   [⟨1, 111111, 80, .available, some 1, none, none⟩,
    ⟨2, 222222, 80, .available, some 1, none, none⟩],
   [], [], 1, 1⟩

lemma exPurchase2_avail : availableRequested exPurchaseDb2 [1, 2] =
    [⟨1, 111111, 80, .available, some 1, none, none⟩,
     ⟨2, 222222, 80, .available, some 1, none, none⟩] := by
  decide

lemma exPurchase2_sum :
    ((availableRequested exPurchaseDb2 [1, 2]).map (fun t => t.price)).sum = 160 := by
  rw [exPurchase2_avail]
  norm_num

lemma exPurchase2_find : exPurchaseDb2.users.find? (fun u => u.uid = 2) =
    some ⟨2, .member, 100⟩ := by
  decide

/-- Witness for the amended C2: on `exPurchaseDb` the fault-free purchase
deducts 80, inserts the Purchase row and sells the ticket; on
`exPurchaseDb2` (the spec's 100-balance, 160-total example) the request is
rejected with `INSUFFICIENT_FUNDS` and the state is unchanged. -/
theorem purchase_amended_witness :
    purchaseRoute exPurchaseDb 2 [1] none =
      (.ok (), ⟨[⟨1, .owner, 0⟩, ⟨2, .member, 20⟩],
        [⟨1, 111111, 80, .sold, some 2, some 1, none⟩],
        [⟨1, 2, 80⟩], [], 1, 2⟩) ∧
    purchaseRoute exPurchaseDb2 2 [1, 2] none =
      (.error .INSUFFICIENT_FUNDS, exPurchaseDb2) := by
  constructor
  · have h := (purchase_amended exPurchaseDb 2 [1]).2.2.2.2 ⟨2, .member, 100⟩
      (by decide) (by decide) exPurchase_find
      (by rw [exPurchase_sum]; norm_num)
    rw [h.1, exPurchase_sum]
    norm_num [purchaseWalletWrite, purchaseInsert, purchaseTicketWrite, exPurchaseDb]
  · exact (purchase_amended exPurchaseDb2 2 [1, 2]).2.2.2.1 ⟨2, .member, 100⟩
      (by decide) (by decide) exPurchase2_find
      (by rw [exPurchase2_sum]; norm_num) none

/-! ## Prize claim (src/controllers/prizes.js, router.post('/claim'))

The route touches one ticket row (looked up by `created_by` and `number`)
and one user row, through four SQL statements with no transaction and no
row lock. We model the relevant slice of the database (that ticket's status
and owner, that user's wallet; the user row is assumed to exist) and each
statement as one atomic step, so that two concurrent claim requests are two
step machines interleaved over the shared state. -/

/-- The rows the claim route touches. -/
structure ClaimSt where
  ticketStatus : TStatus
  ownerId : Nat
  wallet : Rat
  deriving DecidableEq, Repr

/-- Program counter of one claim request: after the ticket SELECT plus its
checks (prizes.js:38-70), after the wallet SELECT (73-83), after the wallet
UPDATE (86-89), after the ticket UPDATE (93-102). -/
inductive ClaimPC where
  | start
  | gotTicket
  | gotWallet
  | walletWritten
  | done
  deriving DecidableEq, Repr

/-- Outcomes of the claim route (by response): the 403 not-owner rejection,
the 400 invalid-status rejection, the mock not-a-winner rejection, the
affectedRows=0 update failure, and success with prize amount and new
wallet. -/
inductive ClaimOutcome where
  | notOwner
  | invalidStatus
  | notWinner
  | updateFailed
  | success (amount newWallet : Rat)
  deriving DecidableEq, Repr

/-- One claim request in flight: `winRoll` is the outcome of the mock
`Math.random() > 0.7` winner draw (prizes.js:66), `walletSnap` the wallet
value its SELECT read. -/
structure ClaimProc where
  pc : ClaimPC
  uid : Nat
  winRoll : Bool
  walletSnap : Rat
  result : Option ClaimOutcome
  deriving DecidableEq, Repr

def initClaim (uid : Nat) (winRoll : Bool) : ClaimProc :=
  ⟨.start, uid, winRoll, 0, none⟩

/-- One atomic statement of the claim route (prizes.js:23-140). The final
ticket UPDATE counts changed rows (mysql2 default): it reports
`affectedRows = 0` — and the route then responds with the update-failure
error — when the row already has status `claimed`. The wallet UPDATE writes
`walletSnap + 1000` (`mockWinAmount`), computed from this request's own
earlier read. -/
def claimStep (st : ClaimSt) (p : ClaimProc) : ClaimSt × ClaimProc :=
  match p.pc with
  | .start =>
    if st.ownerId = p.uid then
      if st.ticketStatus = TStatus.sold then
        if p.winRoll then (st, { p with pc := .gotTicket })
        else (st, { p with pc := .done, result := some .notWinner })
      else (st, { p with pc := .done, result := some .invalidStatus })
    else (st, { p with pc := .done, result := some .notOwner })
  | .gotTicket => (st, { p with pc := .gotWallet, walletSnap := st.wallet })
  | .gotWallet =>
    ({ st with wallet := p.walletSnap + 1000 }, { p with pc := .walletWritten })
  | .walletWritten =>
    if st.ownerId = p.uid then
      if st.ticketStatus = TStatus.claimed then
        (st, { p with pc := .done, result := some .updateFailed })
      else
        ({ st with ticketStatus := TStatus.claimed },
         { p with pc := .done,
                  result := some (.success 1000 (p.walletSnap + 1000)) })
    else (st, { p with pc := .done, result := some .updateFailed })
  | .done => (st, p)

/-- Run one request for `n` steps (a finished request ignores further
steps). -/
def stepN : Nat → ClaimSt × ClaimProc → ClaimSt × ClaimProc
  | 0, s => s
  | n + 1, (st, p) => stepN n (claimStep st p)

/-- Interleave two claim requests under a schedule (`true` steps the first
process, `false` the second). -/
def runClaims : List Bool → ClaimSt × ClaimProc × ClaimProc →
    ClaimSt × ClaimProc × ClaimProc
  | [], s => s
  | b :: rest, (st, p1, p2) =>
    if b then
      let (st', p1') := claimStep st p1
      runClaims rest (st', p1', p2)
    else
      let (st', p2') := claimStep st p2
      runClaims rest (st', p1, p2')

/-! ## Claim C3 -/

/-- **C3 counterexample.** Ticket sold and owned by user 1, wallet 100,
both concurrent requests winners. Under the interleaving where the second
request reads the ticket before the first one's status write and reads the
wallet after the first one's credit, the first request reports success and
the second is rejected — yet the wallet ends at 2100: it was credited
twice. Moreover the loser's rejection is the update-failure error, not an
ALREADY_CLAIMED rejection from the status check. The claim's "wallet
credited exactly once" and "the loser observes status=claimed and is
rejected with ALREADY_CLAIMED" are both false: the route has no
transaction, so the already-claimed check and the status write are not
ordered atomically. -/
theorem claim_concurrent_counterexample :
    (runClaims [true, false, true, true, false, true, false, false]
      (⟨.sold, 1, 100⟩, initClaim 1 true, initClaim 1 true)).1.wallet = 2100 ∧
    (runClaims [true, false, true, true, false, true, false, false]
      (⟨.sold, 1, 100⟩, initClaim 1 true, initClaim 1 true)).2.1.result =
      some (.success 1000 1100) ∧
    (runClaims [true, false, true, true, false, true, false, false]
      (⟨.sold, 1, 100⟩, initClaim 1 true, initClaim 1 true)).2.2.result =
      some .updateFailed := by
  refine ⟨?_, ?_, ?_⟩ <;>
    simp [runClaims, claimStep, initClaim] <;> norm_num

/-- **C3 amended.** Claims on the same ticket are exactly-once only when
serialized: a first (winning) claim by the owner of a sold ticket credits
the wallet exactly once and sets status=claimed, and a second claim run
after it is rejected — by the status validity check, with the
invalid-status error rather than an ALREADY_CLAIMED code — leaving state
unchanged; the owner reference is never modified. Under concurrent
interleaving this guarantee does not hold (see the counterexample): the
check and the status write are separate autocommitted statements with no
transaction or lock. -/
theorem claim_sequential_amended (st : ClaimSt) (uid : Nat) (roll2 : Bool)
    (hown : st.ownerId = uid) (hsold : st.ticketStatus = TStatus.sold) :
    (stepN 4 (st, initClaim uid true)).1.wallet = st.wallet + 1000 ∧
    (stepN 4 (st, initClaim uid true)).1.ticketStatus = TStatus.claimed ∧
    (stepN 4 (st, initClaim uid true)).1.ownerId = st.ownerId ∧
    (stepN 4 (st, initClaim uid true)).2.result =
      some (.success 1000 (st.wallet + 1000)) ∧
    (stepN 4 ((stepN 4 (st, initClaim uid true)).1, initClaim uid roll2)).1 =
      (stepN 4 (st, initClaim uid true)).1 ∧
    (stepN 4 ((stepN 4 (st, initClaim uid true)).1, initClaim uid roll2)).2.result =
      some .invalidStatus := by
  obtain ⟨ts, oid, w⟩ := st
  have hown' : oid = uid := hown
  have hsold' : ts = TStatus.sold := hsold
  subst hsold'
  have e1 : claimStep ⟨TStatus.sold, oid, w⟩ (initClaim uid true) =
      (⟨TStatus.sold, oid, w⟩, ⟨.gotTicket, uid, true, 0, none⟩) := by
    simp [claimStep, initClaim, hown']
  have e2 : claimStep ⟨TStatus.sold, oid, w⟩ ⟨.gotTicket, uid, true, 0, none⟩ =
      (⟨TStatus.sold, oid, w⟩, ⟨.gotWallet, uid, true, w, none⟩) := rfl
  have e3 : claimStep ⟨TStatus.sold, oid, w⟩ ⟨.gotWallet, uid, true, w, none⟩ =
      (⟨TStatus.sold, oid, w + 1000⟩, ⟨.walletWritten, uid, true, w, none⟩) := rfl
  have e4 : claimStep ⟨TStatus.sold, oid, w + 1000⟩
        ⟨.walletWritten, uid, true, w, none⟩ =
      (⟨TStatus.claimed, oid, w + 1000⟩,
       ⟨.done, uid, true, w, some (.success 1000 (w + 1000))⟩) := by
    simp [claimStep, hown']
  have hrun : stepN 4 (⟨TStatus.sold, oid, w⟩, initClaim uid true) =
      (⟨TStatus.claimed, oid, w + 1000⟩,
       ⟨.done, uid, true, w, some (.success 1000 (w + 1000))⟩) := by
    show stepN 3 (claimStep ⟨TStatus.sold, oid, w⟩ (initClaim uid true)) = _
    rw [e1]
    show stepN 2 (claimStep ⟨TStatus.sold, oid, w⟩ ⟨.gotTicket, uid, true, 0, none⟩) = _
    rw [e2]
    show stepN 1 (claimStep ⟨TStatus.sold, oid, w⟩ ⟨.gotWallet, uid, true, w, none⟩) = _
    rw [e3]
    show stepN 0 (claimStep ⟨TStatus.sold, oid, w + 1000⟩
      ⟨.walletWritten, uid, true, w, none⟩) = _
    rw [e4]
    rfl
  have f1 : claimStep ⟨TStatus.claimed, oid, w + 1000⟩ (initClaim uid roll2) =
      (⟨TStatus.claimed, oid, w + 1000⟩,
       ⟨.done, uid, roll2, 0, some .invalidStatus⟩) := by
    simp [claimStep, initClaim, hown']
  have hrun2 : stepN 4 (⟨TStatus.claimed, oid, w + 1000⟩, initClaim uid roll2) =
      (⟨TStatus.claimed, oid, w + 1000⟩,
       ⟨.done, uid, roll2, 0, some .invalidStatus⟩) := by
    show stepN 3 (claimStep ⟨TStatus.claimed, oid, w + 1000⟩ (initClaim uid roll2)) = _
    rw [f1]
    rfl
  rw [hrun]
  rw [hrun2]
  exact ⟨rfl, rfl, rfl, rfl, rfl, rfl⟩

/-- Witness for the amended C3 at status sold, owner 1, wallet 100: the
first claim ends with wallet 1100 and a success result, the second
sequential claim is rejected with the invalid-status error. -/
theorem claim_sequential_amended_witness :
    (stepN 4 (⟨.sold, 1, 100⟩, initClaim 1 true)).1.wallet = 1100 ∧
    (stepN 4 ((stepN 4 (⟨.sold, 1, 100⟩, initClaim 1 true)).1,
      initClaim 1 true)).2.result = some .invalidStatus := by
  have h := claim_sequential_amended ⟨.sold, 1, 100⟩ 1 true rfl rfl
  refine ⟨?_, h.2.2.2.2.2⟩
  rw [h.1]
  norm_num

/-! ## Claim C9 -/

/-- The claimed invariant: a ticket's owner (`created_by`) is non-null iff
its status is not `available`. -/
def ownerIffNotAvailable (db : DB) : Prop :=
  ∀ t ∈ db.tickets, t.createdBy ≠ none ↔ t.status ≠ TStatus.available

instance (db : DB) : Decidable (ownerIffNotAvailable db) := by
  unfold ownerIffNotAvailable
  infer_instance

/-- An owner-only database with no tickets, ready for batch creation. -/
def exCreateDb : DB := ⟨[⟨1, .owner, 0⟩], [], [], [], 1, 1⟩

set_option maxRecDepth 8000 in
/-- **C9 counterexample.** Batch creation on `exCreateDb` (here with the
RNG outcome `0..119`, one possible output of the unique-number loop)
succeeds and produces 120 `available` tickets whose `created_by` is the
admin id — non-null owners on available tickets, so "owner non-null iff
status ≠ available" is violated by the very operation that creates
tickets. -/
theorem ticket_owner_iff_counterexample :
    exceptIsOk (createTickets exCreateDb (List.range 120)) = true ∧
    (dbAfterCreate exCreateDb (List.range 120)).tickets.length = 120 ∧
    ¬ ownerIffNotAvailable (dbAfterCreate exCreateDb (List.range 120)) := by
  decide

/-- **C9 amended.** The forward direction survives: batch creation,
purchase and claim produce only tickets with non-null owner — creation sets
`created_by` to the admin id (status `available`), a purchase write sets
the buyer, and a claim step never modifies the owner — hence
status ≠ available implies a non-null owner in the states those operations
produce; the backward direction fails, because freshly created `available`
tickets already carry the admin as owner. -/
theorem ticket_owner_amended (db : DB) (numbers : List Nat) (uid : Nat)
    (tids : List Nat) (failAt : Option Nat) (st : ClaimSt) (p : ClaimProc) :
    (∀ db', createTickets db numbers = .ok db' →
      ∀ t ∈ db'.tickets, t.createdBy = some ((adminUserId? db).getD 1) ∧
        t.status = TStatus.available) ∧
    ((∀ t ∈ db.tickets, t.createdBy ≠ none) →
      ∀ t ∈ (purchaseRoute db uid tids failAt).2.tickets, t.createdBy ≠ none) ∧
    (claimStep st p).1.ownerId = st.ownerId := by
  refine ⟨?_, ?_, ?_⟩
  · intro db' hok t ht
    unfold createTickets at hok
    split at hok
    · exact absurd hok (by simp)
    · have hdb : db' = { db with
          tickets := freshTickets ((adminUserId? db).getD 1) numbers } :=
        (Except.ok.inj hok).symm
      subst hdb
      simp only [freshTickets, List.mem_map] at ht
      obtain ⟨q, _, rfl⟩ := ht
      exact ⟨rfl, rfl⟩
  · intro hpre t ht
    simp only [purchaseRoute] at ht
    repeat' split at ht
    all_goals
      first
      | exact hpre t ht
      | (simp only [purchaseWalletWrite] at ht
         exact hpre t ht)
      | (simp only [purchaseInsert, purchaseWalletWrite] at ht
         exact hpre t ht)
      | (simp only [purchaseTicketWrite, purchaseInsert,
           purchaseWalletWrite, List.mem_map] at ht
         obtain ⟨t0, ht0, rfl⟩ := ht
         split
         · simp
         · exact hpre t0 ht0)
  · rcases p with ⟨pc, puid, roll, snap, res⟩
    cases pc <;> simp [claimStep] <;> split_ifs <;> rfl

set_option maxRecDepth 8000 in
/-- Witness for the amended C9: the 120 freshly created tickets on
`exCreateDb` all have owner `some 1` (the admin) and status `available`. -/
theorem ticket_owner_amended_witness :
    ∀ t ∈ (dbAfterCreate exCreateDb (List.range 120)).tickets,
      t.createdBy = some 1 ∧ t.status = TStatus.available := by
  have h := (ticket_owner_amended exCreateDb (List.range 120) 0 [] none
    ⟨TStatus.sold, 0, 0⟩ (initClaim 0 true)).1
  intro t ht
  have hok : createTickets exCreateDb (List.range 120) =
      .ok (dbAfterCreate exCreateDb (List.range 120)) := by decide
  have hgetd : (adminUserId? exCreateDb).getD 1 = 1 := by decide
  have := h (dbAfterCreate exCreateDb (List.range 120)) hok t ht
  rw [hgetd] at this
  exact this

end Lotto
